import Mathlib

/-!
Shallow embedding of the terraform-provider-cloudsmith resource adapters:
the Geo-IP rules adapter (src/cloudsmith/resource_repository_geo_ip_rules.go)
and the SAML group-sync adapter (src/unnamed/part_000), together with models
of the shared helpers (waiter, is404, field helpers) that belong to the
repository but are not present under src/, reconstructed from the spec, and
a model of the external API collaborator as described by the spec.

Declared state (the terraform ResourceData object) is embedded as a record;
each adapter operation is a function from declared state and a world (remote
server state plus injected API outcomes) to an optional error, the updated
declared state and the updated world, mirroring the Go functions line by line.
-/

/-- The four rule lists carried by the Geo-IP endpoints
(ReposGeoipRead200Response in the Go client). -/
structure GeoRules where
  cidrAllow : List String
  cidrDeny : List String
  countryAllow : List String
  countryDeny : List String
  deriving Repr, DecidableEq

/-- Declared state of the geo_ip_rules resource: the resource id plus the
schema fields of resourceRepositoryGeoIpRules. The Go field name namespace is
a Lean keyword, rendered here as nspace. -/
structure GeoResourceData where
  id : String
  nspace : String
  repository : String
  cidr_allow : List String
  cidr_deny : List String
  country_code_allow : List String
  country_code_deny : List String
  deriving Repr, DecidableEq

/-- Injected outcomes for the three Geo-IP API calls: none means the call
succeeds; for the read call, the error carries whether the response is a 404. -/
structure GeoBehavior where
  enableErr : Option String
  updateErr : Option String
  readErr : Option (Bool × String)
  deriving Repr, DecidableEq

/-- Remote-side state for the Geo-IP adapter: the stored rule set, the
repository-level Geo-IP enablement flag, and the injected call outcomes. -/
structure GeoWorld where
  behavior : GeoBehavior
  stored : GeoRules
  geoipEnabled : Bool
  deriving Repr, DecidableEq

/-- Modelled from the spec: external interface
EnableGeoIpFiltering(namespace, repository) returning ok or error; an
idempotent remote toggle that enables the repository-level flag. -/
def reposGeoipEnableExecute (w : GeoWorld) : Except String Unit × GeoWorld :=
  match w.behavior.enableErr with
  | some e => (Except.error e, w)
  | none => (Except.ok (), { w with geoipEnabled := true })

/-- Modelled from the spec: external interface
UpdateGeoIpRules(namespace, repository, ruleSet) returning ok or error; on
success the remote stores the full submitted rule set. -/
def reposGeoipUpdateExecute (w : GeoWorld) (payload : GeoRules) :
    Except String Unit × GeoWorld :=
  match w.behavior.updateErr with
  | some e => (Except.error e, w)
  | none => (Except.ok (), { w with stored := payload })

/-- Result of the Geo-IP read call: either the stored rule set or an error
with its is404 flag. -/
inductive GeoReadResp where
  | success : GeoRules → GeoReadResp
  | failure : Bool → String → GeoReadResp
  deriving Repr, DecidableEq

/-- Modelled from the spec: external interface
ReadGeoIpRules(namespace, repository) returning the stored rule set, notFound
or an error. -/
def reposGeoipReadExecute (w : GeoWorld) : GeoReadResp × GeoWorld :=
  match w.behavior.readErr with
  | some (b, e) => (GeoReadResp.failure b e, w)
  | none => (GeoReadResp.success w.stored, w)

/-- Modelled from the spec: Field Helpers convert the declared flat list
representation to the API list-of-strings representation (expandStrings). -/
def expandStrings (l : List String) : List String := l

/-- Modelled from the spec: Field Helpers convert the API list-of-strings
representation back to the declared flat list representation
(flattenStrings). -/
def flattenStrings (l : List String) : List String := l

/-- Embedding of resourceRepositoryGeoIpRulesRead: executes the read call; on
a 404 error clears the id and returns no error; on another error returns it;
on success repopulates the four rule fields via flattenStrings and re-asserts
namespace and repository from declared state. -/
def resourceRepositoryGeoIpRulesRead (d : GeoResourceData) (w : GeoWorld) :
    Option String × GeoResourceData × GeoWorld :=
  match reposGeoipReadExecute w with
  | (GeoReadResp.failure is404resp e, w1) =>
    if is404resp then (none, { d with id := "" }, w1) else (some e, d, w1)
  | (GeoReadResp.success rules, w1) =>
    (none,
      { d with
        cidr_allow := flattenStrings rules.cidrAllow
        cidr_deny := flattenStrings rules.cidrDeny
        country_code_allow := flattenStrings rules.countryAllow
        country_code_deny := flattenStrings rules.countryDeny
        nspace := d.nspace
        repository := d.repository },
      w1)

/-- Embedding of resourceRepositoryGeoIpRulesUpdate: submits the full four-set
payload built with expandStrings; on error returns it with declared state
untouched; on success assigns the composite id and delegates to Read. -/
def resourceRepositoryGeoIpRulesUpdate (d : GeoResourceData) (w : GeoWorld) :
    Option String × GeoResourceData × GeoWorld :=
  let payload : GeoRules :=
    { countryAllow := expandStrings d.country_code_allow
      countryDeny := expandStrings d.country_code_deny
      cidrAllow := expandStrings d.cidr_allow
      cidrDeny := expandStrings d.cidr_deny }
  match reposGeoipUpdateExecute w payload with
  | (Except.error e, w1) => (some e, d, w1)
  | (Except.ok _, w1) =>
    resourceRepositoryGeoIpRulesRead
      { d with id := d.nspace ++ "_" ++ d.repository ++ "_geo_ip_rules" } w1

/-- Embedding of resourceRepositoryGeoIpRulesCreate: enables Geo-IP filtering
for the repository, then delegates to Update. -/
def resourceRepositoryGeoIpRulesCreate (d : GeoResourceData) (w : GeoWorld) :
    Option String × GeoResourceData × GeoWorld :=
  match reposGeoipEnableExecute w with
  | (Except.error e, w1) => (some e, d, w1)
  | (Except.ok _, w1) => resourceRepositoryGeoIpRulesUpdate d w1

/-- The all-empty rule set submitted by Delete. -/
def emptyGeoRules : GeoRules :=
  { cidrAllow := [], cidrDeny := [], countryAllow := [], countryDeny := [] }

/-- Embedding of resourceRepositoryGeoIpRulesDelete: there is no delete
endpoint, so it submits all-empty sets through the update call; on error
returns it, otherwise succeeds without touching declared state. -/
def resourceRepositoryGeoIpRulesDelete (d : GeoResourceData) (w : GeoWorld) :
    Option String × GeoResourceData × GeoWorld :=
  match reposGeoipUpdateExecute w emptyGeoRules with
  | (Except.error e, w1) => (some e, d, w1)
  | (Except.ok _, w1) => (none, d, w1)

/-- A SAML group-sync mapping as returned by the list endpoint. -/
structure SamlMapping where
  idp_key : String
  idp_value : String
  role : String
  team : String
  slug_perm : String
  deriving Repr, DecidableEq

/-- Declared state of the saml resource: the resource id plus the schema
fields of resourceSAML; role carries the framework default Member when the
configuration omits it. -/
structure SamlResourceData where
  id : String
  organization : String
  idp_key : String
  idp_value : String
  role : String
  team : String
  slug_perm : String
  deriving Repr, DecidableEq

/-- Result of a SAML list call: a page of mappings, or an error whose
response status is some code, or none when the http response is nil. -/
inductive ListResp where
  | ok : List SamlMapping → ListResp
  | err : Option Nat → String → ListResp
  deriving Repr, DecidableEq

/-- Modelled from the spec: the shared helper is404, deciding whether an API
error response carries the not-found status. -/
def is404 (status : Option Nat) : Bool :=
  status = some 404

/-- Remote-side state for the SAML adapter: the full remote mapping list, the
slug the server will assign to the next created mapping, injected outcomes
for the create and delete calls, an injected outcome for the nth list call
(indexed by the time counter, which counts list calls made so far). -/
structure SamlWorld where
  remote : List SamlMapping
  newSlug : String
  createErr : Option String
  deleteErr : Option String
  listErr : Nat → Option (Option Nat × String)
  time : Nat

/-- Modelled from the spec: external interface
CreateSamlMapping(organization, mapping): on success the server assigns a
slug, appends the mapping to the organization list and returns it. -/
def orgsSamlGroupSyncCreateExecute (w : SamlWorld) (d : SamlResourceData) :
    Except String SamlMapping × SamlWorld :=
  match w.createErr with
  | some e => (Except.error e, w)
  | none =>
    let m : SamlMapping :=
      { idp_key := d.idp_key, idp_value := d.idp_value, role := d.role,
        team := d.team, slug_perm := w.newSlug }
    (Except.ok m, { w with remote := w.remote ++ [m] })

/-- Modelled from the spec: external interface
ListSamlMappings(organization, page, pageSize): returns the requested page of
the remote list (the whole list when the caller leaves pagination at the API
default), or the injected error for this call; each call advances the time
counter. -/
def orgsSamlGroupSyncListExecute (w : SamlWorld) (page pageSize : Option Nat) :
    ListResp × SamlWorld :=
  let w1 := { w with time := w.time + 1 }
  match w.listErr w.time with
  | some (status, e) => (ListResp.err status e, w1)
  | none =>
    match page, pageSize with
    | some p, some s => (ListResp.ok ((w.remote.drop ((p - 1) * s)).take s), w1)
    | _, _ => (ListResp.ok w.remote, w1)

/-- Modelled from the spec: external interface
DeleteSamlMapping(organization, slugPerm): on success removes the mapping
with that slug from the remote list. -/
def orgsSamlGroupSyncDeleteExecute (w : SamlWorld) (slug : String) :
    Except String Unit × SamlWorld :=
  match w.deleteErr with
  | some e => (Except.error e, w)
  | none =>
    (Except.ok (), { w with remote := w.remote.filter (fun m => m.slug_perm ≠ slug) })

/-- Outcome of one invocation of a poller check function: the Go checker
returns nil (success), the errKeepWaiting sentinel, or a fatal error. -/
inductive CheckOutcome where
  | success : CheckOutcome
  | keepWaiting : CheckOutcome
  | fatal : String → CheckOutcome
  deriving Repr, DecidableEq

/-- Terminal states of the bounded poller. -/
inductive WaitResult where
  | succeeded : WaitResult
  | fatalError : String → WaitResult
  | timedOut : WaitResult
  deriving Repr, DecidableEq

/-- Modelled from the spec: the Bounded Poller (waiter). It invokes the check
function; success and fatal errors are terminal (the fatal error propagated
as-is); on the keep-waiting signal it sleeps and re-invokes unless the
elapsed time exceeds the timeout. fuel is the number of remaining retries,
timeout divided by interval. -/
def waiter {σ : Type} (check : σ → CheckOutcome × σ) : Nat → σ → WaitResult × σ
  | fuel, s =>
    match check s with
    | (CheckOutcome.success, s1) => (WaitResult.succeeded, s1)
    | (CheckOutcome.fatal e, s1) => (WaitResult.fatalError e, s1)
    | (CheckOutcome.keepWaiting, s1) =>
      match fuel with
      | 0 => (WaitResult.timedOut, s1)
      | Nat.succ f => waiter check f s1

/-- The fatal message built by samlCreate when the list endpoint answers 422. -/
def teamNotExistMsg : String :=
  "team does not exist, please check that the team exist"

/-- Modelled from the spec: the message of the timeout error the poller
reports when the deadline elapses. -/
def timedOutMsg : String := "timed out"

/-- How samlCreate classifies one list response inside its checkerFunc: a
successful list is confirmation; a 404 keeps waiting; a 422 is the fatal
team-does-not-exist error; any other error (including a nil response) is
fatal as-is. -/
def samlCreateCheckOutcome (resp : ListResp) : CheckOutcome :=
  match resp with
  | ListResp.ok _ => CheckOutcome.success
  | ListResp.err status e =>
    match status with
    | some s =>
      if s = 404 then CheckOutcome.keepWaiting
      else if s = 422 then CheckOutcome.fatal teamNotExistMsg
      else CheckOutcome.fatal e
    | none => CheckOutcome.fatal e

/-- The stateful checker samlCreate hands to the waiter: one list call with
default pagination, classified by samlCreateCheckOutcome. -/
def samlCreateChecker (w : SamlWorld) : CheckOutcome × SamlWorld :=
  let (resp, w1) := orgsSamlGroupSyncListExecute w none none
  (samlCreateCheckOutcome resp, w1)

/-- How samlDelete classifies one list response inside its checkerFunc: a
successful list or a 404 is done; any other error is fatal as-is. -/
def samlDeleteCheckOutcome (resp : ListResp) : CheckOutcome :=
  match resp with
  | ListResp.ok _ => CheckOutcome.success
  | ListResp.err status e =>
    match status with
    | some s => if s = 404 then CheckOutcome.success else CheckOutcome.fatal e
    | none => CheckOutcome.fatal e

/-- The stateful checker samlDelete hands to the waiter. -/
def samlDeleteChecker (w : SamlWorld) : CheckOutcome × SamlWorld :=
  let (resp, w1) := orgsSamlGroupSyncListExecute w none none
  (samlDeleteCheckOutcome resp, w1)

/-- The context samlCreate wraps around any error the waiter returns. -/
def createWaitErrMsg (id e : String) : String :=
  "error waiting for SAML group sync (" ++ id ++ ") to be created: " ++ e

/-- The context samlDelete wraps around any error the waiter returns. -/
def deleteWaitErrMsg (id e : String) : String :=
  "error waiting for SAML group sync (" ++ id ++ ") to be deleted: " ++ e

/-- The page number samlRead requests. -/
def samlReadPage : Nat := 1

/-- The page size samlRead requests (max page size is 500). -/
def samlReadPageSize : Nat := 500

/-- Embedding of samlRead: one list call with page 1 and page size 500; a 404
clears the id without error; another error is returned; on success the page
is scanned for the item whose slug equals the stored id, repopulating every
field plus organization from declared state when found, and clearing the id
without error when absent. -/
def samlRead (d : SamlResourceData) (w : SamlWorld) :
    Option String × SamlResourceData × SamlWorld :=
  match orgsSamlGroupSyncListExecute w (some samlReadPage) (some samlReadPageSize) with
  | (ListResp.err status e, w1) =>
    if is404 status then (none, { d with id := "" }, w1) else (some e, d, w1)
  | (ListResp.ok items, w1) =>
    match items.find? (fun item => item.slug_perm = d.id) with
    | some item =>
      (none,
        { d with
          idp_key := item.idp_key
          idp_value := item.idp_value
          role := item.role
          team := item.team
          slug_perm := item.slug_perm
          organization := d.organization },
        w1)
    | none => (none, { d with id := "" }, w1)

/-- Embedding of samlCreate: submits the mapping; on error returns it; on
success stores the server-assigned slug as id, then runs the waiter over its
checker, wraps any waiter error with creation context, and on confirmation
delegates to samlRead. fuel is the creation timeout divided by the interval. -/
def samlCreate (fuel : Nat) (d : SamlResourceData) (w : SamlWorld) :
    Option String × SamlResourceData × SamlWorld :=
  match orgsSamlGroupSyncCreateExecute w d with
  | (Except.error e, w1) => (some e, d, w1)
  | (Except.ok saml, w1) =>
    let d1 := { d with id := saml.slug_perm }
    match waiter samlCreateChecker fuel w1 with
    | (WaitResult.succeeded, w2) => samlRead d1 w2
    | (WaitResult.fatalError e, w2) => (some (createWaitErrMsg d1.id e), d1, w2)
    | (WaitResult.timedOut, w2) => (some (createWaitErrMsg d1.id timedOutMsg), d1, w2)

/-- Embedding of samlDelete: issues the delete call first; on error returns
it; then runs the waiter over its checker and wraps any waiter error with
deletion context. fuel is the deletion timeout divided by the interval. -/
def samlDelete (fuel : Nat) (d : SamlResourceData) (w : SamlWorld) :
    Option String × SamlResourceData × SamlWorld :=
  match orgsSamlGroupSyncDeleteExecute w d.id with
  | (Except.error e, w1) => (some e, d, w1)
  | (Except.ok _, w1) =>
    match waiter samlDeleteChecker fuel w1 with
    | (WaitResult.succeeded, w2) => (none, d, w2)
    | (WaitResult.fatalError e, w2) => (some (deleteWaitErrMsg d.id e), d, w2)
    | (WaitResult.timedOut, w2) => (some (deleteWaitErrMsg d.id timedOutMsg), d, w2)

/-- Embedding of samlUpdate: no in-place update exists, so it is samlDelete
followed by samlCreate, propagating a delete error before creating. -/
def samlUpdate (fuelD fuelC : Nat) (d : SamlResourceData) (w : SamlWorld) :
    Option String × SamlResourceData × SamlWorld :=
  match samlDelete fuelD d w with
  | (some e, d1, w1) => (some e, d1, w1)
  | (none, d1, w1) => samlCreate fuelC d1 w1

/-- The import-format error message built by samlImport. -/
def importErrMsg (id : String) : String :=
  "invalid import ID, must be of the form <organization_slug>.<saml_slug_perm>, got: " ++ id

/-- The Go strings.Split(s, sep) for the one-character separator the code
uses: splits on every dot, keeping empty parts, never returning an empty
list. -/
def stringsSplitDot (s : String) : List String :=
  (s.data.splitOn '.').map (fun cs => String.mk cs)

/-- Embedding of samlImport: splits the id on the dot; unless it yields
exactly two parts, fails with the import-format error; otherwise sets
organization to the first part and the id to the second. -/
def samlImport (d : SamlResourceData) : Except String SamlResourceData :=
  let idParts := stringsSplitDot d.id
  if idParts.length ≠ 2 then Except.error (importErrMsg d.id)
  else Except.ok { d with organization := idParts.getD 0 "", id := idParts.getD 1 "" }

/-- The Update-then-Read composition of the Geo-IP adapter, as exercised by
the round-trip property. -/
def geoUpdateThenRead (d : GeoResourceData) (w : GeoWorld) :
    Option String × GeoResourceData × GeoWorld :=
  let r1 := resourceRepositoryGeoIpRulesUpdate d w
  resourceRepositoryGeoIpRulesRead r1.2.1 r1.2.2

/-- A concrete declared state for the geo_ip_rules resource. -/
def gD : GeoResourceData :=
  { id := "", nspace := "acme", repository := "repo1",
    cidr_allow := ["10.0.0.0/24"], cidr_deny := ["10.1.0.0/24"],
    country_code_allow := ["GB"], country_code_deny := ["US"] }

/-- A Geo-IP world in which every API call succeeds. -/
def gWok : GeoWorld :=
  { behavior := { enableErr := none, updateErr := none, readErr := none },
    stored := emptyGeoRules, geoipEnabled := false }

/-- C1: for every rule set R, Geo-IP Update followed by Geo-IP Read leaves the
declared state holding exactly R, compared as sets. -/
theorem geo_update_then_read_roundtrip (d : GeoResourceData) (w : GeoWorld)
    (hu : w.behavior.updateErr = none) (hr : w.behavior.readErr = none) :
    (resourceRepositoryGeoIpRulesUpdate d w).1 = none ∧
    (geoUpdateThenRead d w).1 = none ∧
    (∀ x, x ∈ (geoUpdateThenRead d w).2.1.cidr_allow ↔ x ∈ d.cidr_allow) ∧
    (∀ x, x ∈ (geoUpdateThenRead d w).2.1.cidr_deny ↔ x ∈ d.cidr_deny) ∧
    (∀ x, x ∈ (geoUpdateThenRead d w).2.1.country_code_allow ↔ x ∈ d.country_code_allow) ∧
    (∀ x, x ∈ (geoUpdateThenRead d w).2.1.country_code_deny ↔ x ∈ d.country_code_deny) := by
  simp [geoUpdateThenRead, resourceRepositoryGeoIpRulesUpdate,
    resourceRepositoryGeoIpRulesRead, reposGeoipUpdateExecute, reposGeoipReadExecute,
    expandStrings, flattenStrings, hu, hr]

/-- Witness for C1 at a concrete rule set and an all-success world. -/
theorem geo_update_then_read_roundtrip_witness :
    (resourceRepositoryGeoIpRulesUpdate gD gWok).1 = none ∧
    (geoUpdateThenRead gD gWok).1 = none ∧
    ("10.0.0.0/24" ∈ (geoUpdateThenRead gD gWok).2.1.cidr_allow ↔
      "10.0.0.0/24" ∈ gD.cidr_allow) ∧
    ("GB" ∈ (geoUpdateThenRead gD gWok).2.1.country_code_allow ↔
      "GB" ∈ gD.country_code_allow) := by
  have h := geo_update_then_read_roundtrip gD gWok rfl rfl
  exact ⟨h.1, h.2.1, h.2.2.1 "10.0.0.0/24", h.2.2.2.2.1 "GB"⟩

/-- C10: when the Geo-IP update API call fails, Update returns that error
verbatim with the declared state and world unchanged; only after the call
succeeds is the composite id assigned and the refreshing Read performed. -/
theorem geo_update_failure_leaves_state (d : GeoResourceData) (w : GeoWorld) :
    (∀ e, w.behavior.updateErr = some e →
      resourceRepositoryGeoIpRulesUpdate d w = (some e, d, w)) ∧
    (w.behavior.updateErr = none →
      resourceRepositoryGeoIpRulesUpdate d w =
        resourceRepositoryGeoIpRulesRead
          { d with id := d.nspace ++ "_" ++ d.repository ++ "_geo_ip_rules" }
          { w with stored :=
            { countryAllow := d.country_code_allow, countryDeny := d.country_code_deny,
              cidrAllow := d.cidr_allow, cidrDeny := d.cidr_deny } }) := by
  constructor
  · intro e he
    simp [resourceRepositoryGeoIpRulesUpdate, reposGeoipUpdateExecute, he]
  · intro h
    simp [resourceRepositoryGeoIpRulesUpdate, reposGeoipUpdateExecute,
      expandStrings, h]

/-- A Geo-IP world whose update call fails. -/
def gWupdateFail : GeoWorld :=
  { behavior := { enableErr := none, updateErr := some "update boom", readErr := none },
    stored := emptyGeoRules, geoipEnabled := false }

/-- Witness for C10 at a concrete failing world. -/
theorem geo_update_failure_leaves_state_witness :
    resourceRepositoryGeoIpRulesUpdate gD gWupdateFail = (some "update boom", gD, gWupdateFail) :=
  (geo_update_failure_leaves_state gD gWupdateFail).1 "update boom" rfl

/-- C5: Geo-IP Create sets the repository-level enablement flag regardless of
the rule set (including all-empty), no operation ever disables the flag, and
Delete only submits the all-empty rule set through the update endpoint. -/
theorem geo_create_enables_never_disabled (d : GeoResourceData) (w : GeoWorld) :
    (w.behavior.enableErr = none →
      ((resourceRepositoryGeoIpRulesCreate d w).2.2).geoipEnabled = true) ∧
    (w.geoipEnabled = true →
      ((resourceRepositoryGeoIpRulesCreate d w).2.2).geoipEnabled = true) ∧
    ((resourceRepositoryGeoIpRulesRead d w).2.2.geoipEnabled = w.geoipEnabled) ∧
    ((resourceRepositoryGeoIpRulesUpdate d w).2.2.geoipEnabled = w.geoipEnabled) ∧
    ((resourceRepositoryGeoIpRulesDelete d w).2.2.geoipEnabled = w.geoipEnabled) ∧
    (w.behavior.updateErr = none →
      (resourceRepositoryGeoIpRulesDelete d w).2.2.stored = emptyGeoRules) := by
  refine ⟨?_, ?_, ?_, ?_, ?_, ?_⟩
  · intro he
    cases hu : w.behavior.updateErr <;>
      cases hr : w.behavior.readErr <;>
      simp [resourceRepositoryGeoIpRulesCreate, resourceRepositoryGeoIpRulesUpdate,
        resourceRepositoryGeoIpRulesRead, reposGeoipEnableExecute,
        reposGeoipUpdateExecute, reposGeoipReadExecute, he, hu, hr] <;>
      (try (split <;> simp))
  · intro hen
    cases he : w.behavior.enableErr <;>
      cases hu : w.behavior.updateErr <;>
      cases hr : w.behavior.readErr <;>
      simp [resourceRepositoryGeoIpRulesCreate, resourceRepositoryGeoIpRulesUpdate,
        resourceRepositoryGeoIpRulesRead, reposGeoipEnableExecute,
        reposGeoipUpdateExecute, reposGeoipReadExecute, he, hu, hr, hen] <;>
      (try (split <;> simp))
  · cases hr : w.behavior.readErr <;>
      simp [resourceRepositoryGeoIpRulesRead, reposGeoipReadExecute, hr] <;>
      (try (split <;> simp))
  · cases hu : w.behavior.updateErr <;>
      cases hr : w.behavior.readErr <;>
      simp [resourceRepositoryGeoIpRulesUpdate, resourceRepositoryGeoIpRulesRead,
        reposGeoipUpdateExecute, reposGeoipReadExecute, hu, hr] <;>
      (try (split <;> simp))
  · cases hu : w.behavior.updateErr <;>
      simp [resourceRepositoryGeoIpRulesDelete, reposGeoipUpdateExecute, hu]
  · intro hu
    simp [resourceRepositoryGeoIpRulesDelete, reposGeoipUpdateExecute, hu]

/-- A concrete declared state whose rule set is all-empty. -/
def gDempty : GeoResourceData :=
  { id := "", nspace := "acme", repository := "repo1",
    cidr_allow := [], cidr_deny := [], country_code_allow := [], country_code_deny := [] }

/-- Witness for C5: creating with an all-empty rule set enables the flag, and
Delete leaves a previously enabled flag enabled while storing empty rules. -/
theorem geo_create_enables_never_disabled_witness :
    ((resourceRepositoryGeoIpRulesCreate gDempty gWok).2.2).geoipEnabled = true ∧
    ((resourceRepositoryGeoIpRulesDelete gDempty
      { gWok with geoipEnabled := true }).2.2.geoipEnabled = true) ∧
    (resourceRepositoryGeoIpRulesDelete gDempty
      { gWok with geoipEnabled := true }).2.2.stored = emptyGeoRules := by
  refine ⟨(geo_create_enables_never_disabled gDempty gWok).1 rfl, ?_, ?_⟩
  · have h := (geo_create_enables_never_disabled gDempty
      { gWok with geoipEnabled := true }).2.2.2.2.1
    simpa using h
  · exact (geo_create_enables_never_disabled gDempty
      { gWok with geoipEnabled := true }).2.2.2.2.2 rfl

/-- C6: for both adapters, Read on an absent remote resource (a not-found
response, or for SAML no list entry matching the stored identity) clears the
local identity and returns no error; any other API error is returned without
clearing the identity. -/
theorem read_absent_clears_identity (dg : GeoResourceData) (wg : GeoWorld)
    (ds : SamlResourceData) (ws : SamlWorld) :
    (∀ e, wg.behavior.readErr = some (true, e) →
      resourceRepositoryGeoIpRulesRead dg wg = (none, { dg with id := "" }, wg)) ∧
    (∀ e, wg.behavior.readErr = some (false, e) →
      resourceRepositoryGeoIpRulesRead dg wg = (some e, dg, wg)) ∧
    (∀ e, ws.listErr ws.time = some (some 404, e) →
      (samlRead ds ws).1 = none ∧ (samlRead ds ws).2.1 = { ds with id := "" }) ∧
    (∀ st e, ws.listErr ws.time = some (st, e) → is404 st = false →
      (samlRead ds ws).1 = some e ∧ (samlRead ds ws).2.1 = ds) ∧
    (ws.listErr ws.time = none →
      (ws.remote.take samlReadPageSize).find? (fun item => item.slug_perm = ds.id) = none →
      (samlRead ds ws).1 = none ∧ (samlRead ds ws).2.1 = { ds with id := "" }) := by
  refine ⟨?_, ?_, ?_, ?_, ?_⟩
  · intro e he
    simp [resourceRepositoryGeoIpRulesRead, reposGeoipReadExecute, he]
  · intro e he
    simp [resourceRepositoryGeoIpRulesRead, reposGeoipReadExecute, he]
  · intro e he
    simp [samlRead, orgsSamlGroupSyncListExecute, he, is404]
  · intro st e he h404
    simp [samlRead, orgsSamlGroupSyncListExecute, he, h404]
  · intro hok hfind
    simp only [samlReadPageSize] at hfind
    simp [samlRead, orgsSamlGroupSyncListExecute, hok, samlReadPage, samlReadPageSize, hfind]

/-- A concrete declared state for the saml resource. -/
def sD : SamlResourceData :=
  { id := "slug1", organization := "org1", idp_key := "k", idp_value := "v",
    role := "Member", team := "team1", slug_perm := "slug1" }

/-- A SAML world in which every API call succeeds and the remote list is
empty. -/
def sWbase : SamlWorld :=
  { remote := [], newSlug := "slug1", createErr := none, deleteErr := none,
    listErr := fun _ => none, time := 0 }

/-- A Geo-IP world whose read call reports not-found. -/
def gW404 : GeoWorld :=
  { behavior := { enableErr := none, updateErr := none, readErr := some (true, "nf") },
    stored := emptyGeoRules, geoipEnabled := false }

/-- A Geo-IP world whose read call fails with a non-404 error. -/
def gWreadFail : GeoWorld :=
  { behavior := { enableErr := none, updateErr := none, readErr := some (false, "geo read boom") },
    stored := emptyGeoRules, geoipEnabled := false }

/-- A SAML world whose list calls all report not-found. -/
def sW404 : SamlWorld :=
  { sWbase with listErr := fun _ => some (some 404, "nf") }

/-- A SAML world whose list calls all fail with a 500-status error. -/
def sW500 : SamlWorld :=
  { sWbase with listErr := fun _ => some (some 500, "list boom") }

/-- Witness for C6 at concrete not-found, failing and scan-miss worlds. -/
theorem read_absent_clears_identity_witness :
    resourceRepositoryGeoIpRulesRead gD gW404 = (none, { gD with id := "" }, gW404) ∧
    resourceRepositoryGeoIpRulesRead gD gWreadFail = (some "geo read boom", gD, gWreadFail) ∧
    (samlRead sD sW404).1 = none ∧
    (samlRead sD sW404).2.1 = { sD with id := "" } ∧
    (samlRead sD sW500).1 = some "list boom" ∧
    (samlRead sD sWbase).1 = none ∧
    (samlRead sD sWbase).2.1 = { sD with id := "" } := by
  have h1 := read_absent_clears_identity gD gW404 sD sW404
  have h2 := read_absent_clears_identity gD gWreadFail sD sW500
  have h3 := read_absent_clears_identity gD gWok sD sWbase
  exact ⟨h1.1 "nf" (by rfl), h2.2.1 "geo read boom" (by rfl),
    (h1.2.2.1 "nf" (by rfl)).1, (h1.2.2.1 "nf" (by rfl)).2,
    (h2.2.2.2.1 (some 500) "list boom" (by rfl) (by decide)).1,
    (h3.2.2.2.2 (by rfl) (by decide)).1, (h3.2.2.2.2 (by rfl) (by decide)).2⟩

/-- C7: samlRead requests exactly one page (page 1, page size 500), scans it
for the entry whose slug equals the stored identity, repopulates every
declared field plus organization when found, and never examines entries
beyond the first 500. -/
theorem saml_read_single_page_scan (ds : SamlResourceData) (ws : SamlWorld)
    (h : ws.listErr ws.time = none) :
    samlReadPage = 1 ∧ samlReadPageSize = 500 ∧
    (∀ it, (ws.remote.take samlReadPageSize).find?
        (fun item => item.slug_perm = ds.id) = some it →
      samlRead ds ws =
        (none,
          { ds with
            idp_key := it.idp_key
            idp_value := it.idp_value
            role := it.role
            team := it.team
            slug_perm := it.slug_perm
            organization := ds.organization },
          { ws with time := ws.time + 1 })) ∧
    ((ws.remote.take samlReadPageSize).find? (fun item => item.slug_perm = ds.id) = none →
      samlRead ds ws = (none, { ds with id := "" }, { ws with time := ws.time + 1 })) := by
  refine ⟨rfl, rfl, ?_, ?_⟩
  · intro it hit
    simp only [samlReadPageSize] at hit
    simp [samlRead, orgsSamlGroupSyncListExecute, h, samlReadPage, samlReadPageSize, hit]
  · intro hnone
    simp only [samlReadPageSize] at hnone
    simp [samlRead, orgsSamlGroupSyncListExecute, h, samlReadPage, samlReadPageSize, hnone]

/-- A filler mapping whose slug differs from the stored identity. -/
def sFiller : SamlMapping :=
  { idp_key := "fk", idp_value := "fv", role := "Member", team := "ft", slug_perm := "other" }

/-- The mapping whose slug matches the stored identity of sD. -/
def sTarget : SamlMapping :=
  { idp_key := "tk", idp_value := "tv", role := "Manager", team := "tt", slug_perm := "slug1" }

/-- A SAML world whose remote list holds the matching entry first. -/
def sWfound : SamlWorld := { sWbase with remote := [sTarget, sFiller] }

/-- A SAML world with 500 non-matching entries followed by the matching one,
so the match sits just beyond the requested page. -/
def sWbeyond : SamlWorld :=
  { sWbase with remote := List.replicate 500 sFiller ++ [sTarget] }

set_option maxRecDepth 8000 in
/-- Witness for C7: the matching entry on page one repopulates the fields,
and a matching entry at position 501 is never seen, so the id is cleared. -/
theorem saml_read_single_page_scan_witness :
    samlRead sD sWfound =
      (none,
        { sD with
          idp_key := "tk"
          idp_value := "tv"
          role := "Manager"
          team := "tt"
          slug_perm := "slug1"
          organization := "org1" },
        { sWfound with time := 1 }) ∧
    samlRead sD sWbeyond = (none, { sD with id := "" }, { sWbeyond with time := 1 }) := by
  constructor
  · exact (saml_read_single_page_scan sD sWfound (by rfl)).2.2.1 sTarget (by decide)
  · exact (saml_read_single_page_scan sD sWbeyond (by rfl)).2.2.2 (by decide)

/-- The mapping samlCreate submits, as the server records it with the slug it
assigns. -/
def createdMapping (d : SamlResourceData) (w : SamlWorld) : SamlMapping :=
  { idp_key := d.idp_key, idp_value := d.idp_value, role := d.role,
    team := d.team, slug_perm := w.newSlug }

/-- When every list call reports not-found, the creation poll runs out of
fuel and times out. -/
theorem waiter_create_all404_timesOut (fuel : Nat) :
    ∀ w : SamlWorld, (∀ n, ∃ e, w.listErr n = some (some 404, e)) →
      ∃ w2, waiter samlCreateChecker fuel w = (WaitResult.timedOut, w2) := by
  induction fuel with
  | zero =>
    intro w h
    obtain ⟨e, he⟩ := h w.time
    exact ⟨{ w with time := w.time + 1 },
      by simp [waiter, samlCreateChecker, orgsSamlGroupSyncListExecute, he,
        samlCreateCheckOutcome]⟩
  | succ f ih =>
    intro w h
    obtain ⟨e, he⟩ := h w.time
    obtain ⟨w2, hw2⟩ := ih { w with time := w.time + 1 } (fun n => h n)
    exact ⟨w2,
      by simp [waiter, samlCreateChecker, orgsSamlGroupSyncListExecute, he,
        samlCreateCheckOutcome, hw2]⟩

/-- C2: during the creation poll, a successful list is confirmation, 404
keeps waiting, 422 is the immediate fatal team-does-not-exist error
independent of the remaining poll budget, and all-404 responses end in a
timeout error. -/
theorem saml_create_poll_behavior (d : SamlResourceData) (w : SamlWorld) (fuel : Nat) :
    (∀ items, samlCreateCheckOutcome (ListResp.ok items) = CheckOutcome.success) ∧
    (∀ e, samlCreateCheckOutcome (ListResp.err (some 404) e) = CheckOutcome.keepWaiting) ∧
    (∀ e, samlCreateCheckOutcome (ListResp.err (some 422) e) =
      CheckOutcome.fatal teamNotExistMsg) ∧
    (w.createErr = none →
      ((∀ e, w.listErr w.time = some (some 422, e) →
        (samlCreate fuel d w).1 = some (createWaitErrMsg w.newSlug teamNotExistMsg)) ∧
       (w.listErr w.time = none →
        samlCreate fuel d w =
          samlRead { d with id := w.newSlug }
            { w with remote := w.remote ++ [createdMapping d w], time := w.time + 1 }) ∧
       ((∀ n, ∃ e, w.listErr n = some (some 404, e)) →
        (samlCreate fuel d w).1 = some (createWaitErrMsg w.newSlug timedOutMsg)))) := by
  refine ⟨fun items => rfl, fun e => rfl, fun e => rfl, fun hc => ⟨?_, ?_, ?_⟩⟩
  · intro e he
    simp [samlCreate, orgsSamlGroupSyncCreateExecute, hc, waiter, samlCreateChecker,
      orgsSamlGroupSyncListExecute, he, samlCreateCheckOutcome, createdMapping]
  · intro hnone
    simp [samlCreate, orgsSamlGroupSyncCreateExecute, hc, waiter, samlCreateChecker,
      orgsSamlGroupSyncListExecute, hnone, samlCreateCheckOutcome, createdMapping]
  · intro hall
    obtain ⟨w2, hw2⟩ := waiter_create_all404_timesOut fuel
      { w with remote := w.remote ++ [createdMapping d w] } (fun n => hall n)
    simp [samlCreate, orgsSamlGroupSyncCreateExecute, hc, createdMapping] at hw2 ⊢
    simp [hw2]

/-- A SAML world whose list calls all answer with the unprocessable status. -/
def sW422 : SamlWorld :=
  { sWbase with listErr := fun _ => some (some 422, "unprocessable") }

/-- Witness for C2 at concrete 422, success and all-404 worlds. -/
theorem saml_create_poll_behavior_witness :
    (samlCreate 3 sD sW422).1 = some (createWaitErrMsg "slug1" teamNotExistMsg) ∧
    (samlCreate 0 sD sW422).1 = some (createWaitErrMsg "slug1" teamNotExistMsg) ∧
    samlCreate 3 sD sWbase =
      samlRead { sD with id := "slug1" }
        { sWbase with remote := [createdMapping sD sWbase], time := 1 } ∧
    (samlCreate 3 sD sW404).1 = some (createWaitErrMsg "slug1" timedOutMsg) := by
  have h3 := saml_create_poll_behavior sD sW422 3
  have h0 := saml_create_poll_behavior sD sW422 0
  have hs := saml_create_poll_behavior sD sWbase 3
  have ht := saml_create_poll_behavior sD sW404 3
  refine ⟨(h3.2.2.2 (by rfl)).1 "unprocessable" (by rfl),
    (h0.2.2.2 (by rfl)).1 "unprocessable" (by rfl), ?_, ?_⟩
  · have := (hs.2.2.2 (by rfl)).2.1 (by rfl)
    simpa using this
  · exact (ht.2.2.2 (by rfl)).2.2 (fun n => ⟨"nf", by rfl⟩)

/-- C4: samlDelete issues the delete call first (a delete error returns
immediately with nothing polled), then polls the list endpoint; the poll is
done on a 404 or on any successful list, even one still containing the
deleted entry, and any other list error is fatal. -/
theorem saml_delete_poll_behavior (d : SamlResourceData) (w : SamlWorld) (fuel : Nat) :
    (∀ items, samlDeleteCheckOutcome (ListResp.ok items) = CheckOutcome.success) ∧
    (∀ e, samlDeleteCheckOutcome (ListResp.err (some 404) e) = CheckOutcome.success) ∧
    (∀ s e, s ≠ 404 → samlDeleteCheckOutcome (ListResp.err (some s) e) =
      CheckOutcome.fatal e) ∧
    (∀ e, samlDeleteCheckOutcome (ListResp.err none e) = CheckOutcome.fatal e) ∧
    (∀ e, w.deleteErr = some e → samlDelete fuel d w = (some e, d, w)) ∧
    (w.deleteErr = none → w.listErr w.time = none →
      samlDelete fuel d w =
        (none, d,
          { w with
            remote := w.remote.filter (fun m => m.slug_perm ≠ d.id)
            time := w.time + 1 })) ∧
    (∀ st e, w.deleteErr = none → w.listErr w.time = some (st, e) → is404 st = false →
      (samlDelete fuel d w).1 = some (deleteWaitErrMsg d.id e)) := by
  refine ⟨fun items => rfl, fun e => rfl, ?_, fun e => rfl, ?_, ?_, ?_⟩
  · intro s e hs
    simp [samlDeleteCheckOutcome, hs]
  · intro e he
    simp [samlDelete, orgsSamlGroupSyncDeleteExecute, he]
  · intro hd hl
    simp [samlDelete, orgsSamlGroupSyncDeleteExecute, hd, waiter, samlDeleteChecker,
      orgsSamlGroupSyncListExecute, hl, samlDeleteCheckOutcome]
  · intro st e hd hl h404
    rcases st with _ | s
    · simp [samlDelete, orgsSamlGroupSyncDeleteExecute, hd, waiter, samlDeleteChecker,
        orgsSamlGroupSyncListExecute, hl, samlDeleteCheckOutcome]
    · have hs : ¬(s = 404) := by
        intro hcon
        simp [is404, hcon] at h404
      simp [samlDelete, orgsSamlGroupSyncDeleteExecute, hd, waiter, samlDeleteChecker,
        orgsSamlGroupSyncListExecute, hl, samlDeleteCheckOutcome, hs]

/-- A SAML world whose remote list still shows the entry being deleted. -/
def sWstale : SamlWorld :=
  { sWbase with
    remote := [sTarget]
    deleteErr := some "delete boom" }

/-- Witness for C4: a failing delete call returns its error untouched with no
poll performed; with the delete call succeeding, a successful yet nonempty
list finishes the poll, and a 500-status list error is fatal and wrapped. -/
theorem saml_delete_poll_behavior_witness :
    samlDelete 3 sD sWstale = (some "delete boom", sD, sWstale) ∧
    samlDelete 3 sD sWfound =
      (none, sD, { sWfound with remote := [sFiller], time := 1 }) ∧
    (samlDelete 3 sD sW500).1 = some (deleteWaitErrMsg "slug1" "list boom") := by
  have h1 := saml_delete_poll_behavior sD sWstale 3
  have h2 := saml_delete_poll_behavior sD sWfound 3
  have h3 := saml_delete_poll_behavior sD sW500 3
  refine ⟨h1.2.2.2.2.1 "delete boom" (by rfl), ?_, ?_⟩
  · have := h2.2.2.2.2.2.1 (by rfl) (by rfl)
    simpa [sWfound, sTarget, sFiller, sD] using this
  · exact h3.2.2.2.2.2.2 (some 500) "list boom" (by rfl) (by rfl) (by decide)

/-- C8: samlUpdate is exactly samlDelete followed by samlCreate, and it is
not atomic: when the delete succeeds and the create call then fails, Update
returns the create error with the mapping already gone from the remote list
and nothing recreated. -/
theorem saml_update_is_delete_then_create (fuelD fuelC : Nat)
    (d : SamlResourceData) (w : SamlWorld) :
    (samlUpdate fuelD fuelC d w =
      (match samlDelete fuelD d w with
       | (some e, d1, w1) => (some e, d1, w1)
       | (none, d1, w1) => samlCreate fuelC d1 w1)) ∧
    (∀ e, w.deleteErr = none → w.listErr w.time = none → w.createErr = some e →
      (samlUpdate fuelD fuelC d w).1 = some e ∧
      (samlUpdate fuelD fuelC d w).2.2.remote =
        w.remote.filter (fun m => m.slug_perm ≠ d.id)) := by
  constructor
  · rfl
  · intro e hd hl hc
    have hdel := (saml_delete_poll_behavior d w fuelD).2.2.2.2.2.1 hd hl
    constructor <;>
      simp [samlUpdate, hdel, samlCreate, orgsSamlGroupSyncCreateExecute, hc]

/-- A SAML world where the delete call succeeds but the create call fails. -/
def sWcreateFail : SamlWorld :=
  { sWbase with
    remote := [sTarget, sFiller]
    createErr := some "create boom" }

/-- Witness for C8: with a concrete remote list, Update surfaces the create
error while the old mapping is already removed remotely. -/
theorem saml_update_is_delete_then_create_witness :
    (samlUpdate 3 3 sD sWcreateFail).1 = some "create boom" ∧
    (samlUpdate 3 3 sD sWcreateFail).2.2.remote = [sFiller] := by
  have h := (saml_update_is_delete_then_create 3 3 sD sWcreateFail).2
    "create boom" (by rfl) (by rfl) (by rfl)
  exact ⟨h.1, by rw [h.2]; decide⟩

/-- C3 counterexample: during the creation poll a plain transport error from
the list endpoint (status 500, neither a timeout nor an import error) is
returned wrapped in creation context rather than verbatim. -/
theorem saml_create_wraps_fatal_poll_error_cex :
    (samlCreate 5 sD sW500).1 = some (createWaitErrMsg "slug1" "list boom") ∧
    createWaitErrMsg "slug1" "list boom" ≠ "list boom" ∧
    (samlCreate 5 sD sW500).1 ≠ some "list boom" := by
  refine ⟨by rfl, by decide, by decide⟩

/-- A Geo-IP world whose enable call fails. -/
def gWenableFail : GeoWorld :=
  { behavior := { enableErr := some "enable boom", updateErr := none, readErr := none },
    stored := emptyGeoRules, geoipEnabled := false }

/-- C3 amended: every error from Create/Read/Update/Delete propagates
unwrapped, except that the SAML creation and deletion polls wrap every error
the waiter returns (fatal poll errors as well as timeouts) with operation
context, and malformed import ids yield the descriptive import-format
error. -/
theorem errors_propagate_amended (dg : GeoResourceData) (wg : GeoWorld)
    (ds : SamlResourceData) (ws : SamlWorld) (e : String) (fuel : Nat) :
    (wg.behavior.enableErr = some e →
      (resourceRepositoryGeoIpRulesCreate dg wg).1 = some e) ∧
    (wg.behavior.updateErr = some e →
      (resourceRepositoryGeoIpRulesUpdate dg wg).1 = some e) ∧
    (wg.behavior.readErr = some (false, e) →
      (resourceRepositoryGeoIpRulesRead dg wg).1 = some e) ∧
    (wg.behavior.updateErr = some e →
      (resourceRepositoryGeoIpRulesDelete dg wg).1 = some e) ∧
    (ws.createErr = some e → (samlCreate fuel ds ws).1 = some e) ∧
    (∀ st, ws.listErr ws.time = some (st, e) → is404 st = false →
      (samlRead ds ws).1 = some e) ∧
    (ws.deleteErr = some e → (samlDelete fuel ds ws).1 = some e) ∧
    (ws.createErr = none → ws.listErr ws.time = some (some 500, e) →
      (samlCreate fuel ds ws).1 = some (createWaitErrMsg ws.newSlug e)) ∧
    (ws.createErr = none → (∀ n, ∃ e2, ws.listErr n = some (some 404, e2)) →
      (samlCreate fuel ds ws).1 = some (createWaitErrMsg ws.newSlug timedOutMsg)) ∧
    (ws.deleteErr = none → ws.listErr ws.time = some (some 500, e) →
      (samlDelete fuel ds ws).1 = some (deleteWaitErrMsg ds.id e)) ∧
    ((stringsSplitDot ds.id).length ≠ 2 →
      samlImport ds = Except.error (importErrMsg ds.id)) := by
  refine ⟨?_, ?_, ?_, ?_, ?_, ?_, ?_, ?_, ?_, ?_, ?_⟩
  · intro he
    simp [resourceRepositoryGeoIpRulesCreate, reposGeoipEnableExecute, he]
  · intro hu
    simp [resourceRepositoryGeoIpRulesUpdate, reposGeoipUpdateExecute, hu]
  · intro hr
    simp [resourceRepositoryGeoIpRulesRead, reposGeoipReadExecute, hr]
  · intro hu
    simp [resourceRepositoryGeoIpRulesDelete, reposGeoipUpdateExecute, hu]
  · intro hc
    simp [samlCreate, orgsSamlGroupSyncCreateExecute, hc]
  · intro st hl h404
    simp [samlRead, orgsSamlGroupSyncListExecute, hl, h404]
  · intro hd
    simp [samlDelete, orgsSamlGroupSyncDeleteExecute, hd]
  · intro hc hl
    simp [samlCreate, orgsSamlGroupSyncCreateExecute, hc, waiter, samlCreateChecker,
      orgsSamlGroupSyncListExecute, hl, samlCreateCheckOutcome]
  · intro hc hall
    obtain ⟨w2, hw2⟩ := waiter_create_all404_timesOut fuel
      { ws with remote := ws.remote ++ [createdMapping ds ws] } (fun n => hall n)
    simp [samlCreate, orgsSamlGroupSyncCreateExecute, hc, createdMapping] at hw2 ⊢
    simp [hw2]
  · intro hd hl
    simp [samlDelete, orgsSamlGroupSyncDeleteExecute, hd, waiter, samlDeleteChecker,
      orgsSamlGroupSyncListExecute, hl, samlDeleteCheckOutcome]
  · intro hlen
    simp [samlImport, hlen]

/-- A declared saml state whose id has no dot, so import must fail. -/
def sDnoDot : SamlResourceData := { sD with id := "org1" }

/-- Witness for the amended C3 at concrete worlds: unwrapped propagation for
each plain API failure, wrapped messages for poll errors and timeouts, and
the import-format error. -/
theorem errors_propagate_amended_witness :
    (resourceRepositoryGeoIpRulesCreate gD gWenableFail).1 = some "enable boom" ∧
    (resourceRepositoryGeoIpRulesUpdate gD gWupdateFail).1 = some "update boom" ∧
    (resourceRepositoryGeoIpRulesRead gD gWreadFail).1 = some "geo read boom" ∧
    (resourceRepositoryGeoIpRulesDelete gD gWupdateFail).1 = some "update boom" ∧
    (samlCreate 3 sD sWcreateFail).1 = some "create boom" ∧
    (samlRead sD sW500).1 = some "list boom" ∧
    (samlDelete 3 sD sWstale).1 = some "delete boom" ∧
    (samlCreate 3 sD sW500).1 = some (createWaitErrMsg "slug1" "list boom") ∧
    (samlCreate 3 sD sW404).1 = some (createWaitErrMsg "slug1" timedOutMsg) ∧
    (samlDelete 3 sD sW500).1 = some (deleteWaitErrMsg "slug1" "list boom") ∧
    samlImport sDnoDot = Except.error (importErrMsg "org1") := by
  refine ⟨(errors_propagate_amended gD gWenableFail sD sWbase "enable boom" 3).1 (by rfl),
    (errors_propagate_amended gD gWupdateFail sD sWbase "update boom" 3).2.1 (by rfl),
    (errors_propagate_amended gD gWreadFail sD sWbase "geo read boom" 3).2.2.1 (by rfl),
    (errors_propagate_amended gD gWupdateFail sD sWbase "update boom" 3).2.2.2.1 (by rfl),
    (errors_propagate_amended gD gWok sD sWcreateFail "create boom" 3).2.2.2.2.1 (by rfl),
    (errors_propagate_amended gD gWok sD sW500 "list boom" 3).2.2.2.2.2.1
      (some 500) (by rfl) (by decide),
    (errors_propagate_amended gD gWok sD sWstale "delete boom" 3).2.2.2.2.2.2.1 (by rfl),
    ?_, ?_, ?_, ?_⟩
  · exact (errors_propagate_amended gD gWok sD sW500 "list boom" 3).2.2.2.2.2.2.2.1
      (by rfl) (by rfl)
  · exact (errors_propagate_amended gD gWok sD sW404 "unused" 3).2.2.2.2.2.2.2.2.1
      (by rfl) (fun n => ⟨"nf", by rfl⟩)
  · exact (errors_propagate_amended gD gWok sD sW500 "list boom" 3).2.2.2.2.2.2.2.2.2.1
      (by rfl) (by rfl)
  · exact (errors_propagate_amended gD gWok sDnoDot sWbase "unused" 3).2.2.2.2.2.2.2.2.2.2
      (by decide)

/-- C9: samlImport succeeds exactly when the id splits on the dot into two
parts, setting organization to the first and the identity to the second, and
fails with the import-format error otherwise. -/
theorem saml_import_two_parts (d : SamlResourceData) :
    ((stringsSplitDot d.id).length = 2 →
      samlImport d = Except.ok
        { d with
          organization := (stringsSplitDot d.id).getD 0 ""
          id := (stringsSplitDot d.id).getD 1 "" }) ∧
    ((stringsSplitDot d.id).length ≠ 2 →
      samlImport d = Except.error (importErrMsg d.id)) := by
  constructor
  · intro h
    simp [samlImport, h]
  · intro h
    simp [samlImport, h]

/-- A declared saml state whose id is a well-formed composite import id. -/
def sDdotted : SamlResourceData := { sD with id := "org1.abc123" }

/-- A declared saml state whose id has two dots, so import must fail. -/
def sDtwoDots : SamlResourceData := { sD with id := "org1.abc.extra" }

/-- Witness for C9 at the three concrete import ids of the spec. -/
theorem saml_import_two_parts_witness :
    samlImport sDdotted =
      Except.ok { sDdotted with organization := "org1", id := "abc123" } ∧
    samlImport sDnoDot = Except.error (importErrMsg "org1") ∧
    samlImport sDtwoDots = Except.error (importErrMsg "org1.abc.extra") := by
  refine ⟨?_, ?_, ?_⟩
  · have h := (saml_import_two_parts sDdotted).1 (by decide)
    rw [h]
    rfl
  · exact (saml_import_two_parts sDnoDot).2 (by decide)
  · exact (saml_import_two_parts sDtwoDots).2 (by decide)
